import Mathlib

/-!
Verification of the flashcard study-session state machine implemented in
`src/components/FlashcardMode.tsx`.

The React component `FlashcardMode` owns:
  * `queue : number[]` — card indices to traverse (initially `cards.map((_,i)=>i)`);
  * `queueIndex` — cursor into the queue;
  * `results : Record<string, UserResult>` — the result ledger keyed by card id;
  * `isFlipped`, `input`, `isBookmarked` — per-card presentation/edit buffers;
  * `showRetryPrompt` — set when the cursor exhausts the queue;
  * the `onComplete` callback — modelled here as the `finished` field.

Each user-triggered handler (`handleSubmit`, `handleSkip`, `goToNextCard`,
`handlePrevious`, `toggleBookmark`, `handleRetry`, `handleFinish`) is embedded
as a pure function, and the two `useEffect` hooks (the buffer-rehydration
effect and the auto-finish effect) are applied after every state-mutating
handler, exactly as React runs effects after a state change whose dependencies
changed.  A whole interaction is a fold of `step` over a list of `Action`s.
-/

namespace Flashcards

/-- `FlashcardData` from `src/types` (part_001): one card of the Card Store. -/
structure FlashcardData where
  id : String
  chinese : String
  english : String
deriving DecidableEq

/-- `UserResult` from `src/types` (part_001): one ledger entry. -/
structure UserResult where
  cardId : String
  chinese : String
  correctEnglish : String
  userInput : String
  isSkipped : Bool
  isBookmarked : Bool
deriving DecidableEq

/-- The `results : Record<string, UserResult>` ledger: a JS object keyed by
card id, so at most one entry per id by construction. -/
abbrev ResultsMap := String → Option UserResult

/-- The initial empty `Record` (`useState({})`, FlashcardMode.tsx line 18). -/
def ResultsMap.empty : ResultsMap := fun _ => none

/-- The spread-upsert `setResults(prev => ({...prev, [currentCard.id]: result}))`
(FlashcardMode.tsx lines 67-70): total replacement of the entry at `id`,
all other keys unchanged. -/
def ResultsMap.insert (m : ResultsMap) (id : String) (v : UserResult) : ResultsMap :=
  fun k => if k = id then some v else m k

/-- The component state of `FlashcardMode` (FlashcardMode.tsx lines 14-23),
plus `finished`, which records the argument of the `onComplete` call made by
`handleFinish` (line 141); `finished = none` means `onComplete` has not fired. -/
structure SessionState where
  queue : List Nat
  queueIndex : Nat
  results : ResultsMap
  isFlipped : Bool
  input : String
  isBookmarked : Bool
  showRetryPrompt : Bool
  finished : Option (List UserResult)

/-- Initial state (FlashcardMode.tsx lines 14-23): queue = all indices in
original order, cursor 0, empty ledger, empty buffers. -/
def initState (cards : List FlashcardData) : SessionState :=
  { queue := List.range cards.length
    queueIndex := 0
    results := ResultsMap.empty
    isFlipped := false
    input := ""
    isBookmarked := false
    showRetryPrompt := false
    finished := none }

/-- `const currentCardIndex = queue[queueIndex]` (line 28). -/
def currentCardIndex (s : SessionState) : Option Nat := s.queue[s.queueIndex]?

/-- `const currentCard = cards[currentCardIndex]` (line 29); `none` models the
JS `undefined` guarded at line 171. -/
def currentCard (cards : List FlashcardData) (s : SessionState) : Option FlashcardData :=
  (currentCardIndex s).bind fun i => cards[i]?

/-- The test `results[c.id]?.isSkipped` used at lines 33 and 116. -/
def resultSkipped (m : ResultsMap) (id : String) : Bool :=
  match m id with
  | some r => r.isSkipped
  | none => false

/-- `const skippedCount = cards.filter(c => results[c.id]?.isSkipped).length`
(line 33), recomputed from the ledger on every render. -/
def skippedCount (cards : List FlashcardData) (m : ResultsMap) : Nat :=
  (cards.filter fun c => resultSkipped m c.id).length

/-- The JS guard `!input.trim()` (line 93): true exactly when the input text
is empty or whitespace-only, i.e. when trimming leaves the empty string. -/
def blankInput (t : String) : Bool :=
  t.toList.all Char.isWhitespace

/-- The `UserResult` literal built by `saveCurrentResult` (lines 58-65). -/
def mkResult (card : FlashcardData) (currentInput : String) (skipped : Bool)
    (currentBookmark : Bool) : UserResult :=
  { cardId := card.id
    chinese := card.chinese
    correctEnglish := card.english
    userInput := currentInput
    isSkipped := skipped
    isBookmarked := currentBookmark }

/-- `saveCurrentResult(skipped, currentInput = input, currentBookmark = isBookmarked)`
(lines 57-71): upserts the ledger entry for the current card. -/
def saveCurrentResult (card : FlashcardData) (skipped : Bool) (currentInput : String)
    (currentBookmark : Bool) (s : SessionState) : SessionState :=
  { s with results := s.results.insert card.id (mkResult card currentInput skipped currentBookmark) }

/-- The default entry synthesized by `handleFinish` for a card absent from the
ledger (lines 132-139). -/
def synthResult (card : FlashcardData) : UserResult :=
  { cardId := card.id
    chinese := card.chinese
    correctEnglish := card.english
    userInput := ""
    isSkipped := true
    isBookmarked := false }

/-- The `finalResults` computation of `handleFinish` (lines 131-140): one entry
per card in original Card Store order, taking the ledger entry when present and
the synthesized skipped entry otherwise. -/
def finalize (cards : List FlashcardData) (m : ResultsMap) : List UserResult :=
  cards.map fun card => (m card.id).getD (synthResult card)

/-- `handleFinish` (lines 128-142): computes `finalResults` and calls
`onComplete`, recorded in `finished`. -/
def handleFinish (cards : List FlashcardData) (s : SessionState) : SessionState :=
  { s with finished := some (finalize cards s.results) }

/-- `goToNextCard` (lines 98-107): advance the cursor, or raise the retry
prompt when the cursor sits at the last queue position. -/
def goToNextCard (s : SessionState) : SessionState :=
  if s.queueIndex < s.queue.length - 1 then
    { s with isFlipped := false, queueIndex := s.queueIndex + 1 }
  else
    { s with isFlipped := false, showRetryPrompt := true }

/-- The `skippedIndices` computation inside `handleRetry` (lines 111-117):
all card positions whose ledger entry is marked skipped, in original Card
Store order. -/
def skippedIndices (cards : List FlashcardData) (m : ResultsMap) : List Nat :=
  (List.range cards.length).filter fun idx =>
    match cards[idx]? with
    | some c => resultSkipped m c.id
    | none => false

/-- The buffer-rehydration effect (lines 35-48): on a state change, reload
`input` and `isBookmarked` from the ledger entry of the current card, or reset
them when the card has no entry. -/
def rehydrate (cards : List FlashcardData) (s : SessionState) : SessionState :=
  match currentCard cards s with
  | none => s
  | some card =>
    match s.results card.id with
    | some r => { s with input := r.userInput, isBookmarked := r.isBookmarked }
    | none => { s with input := "", isBookmarked := false }

/-- The auto-finish effect (lines 51-55): `if (showRetryPrompt && skippedCount === 0)
handleFinish()`. -/
def checkAutoFinish (cards : List FlashcardData) (s : SessionState) : SessionState :=
  if s.showRetryPrompt = true ∧ skippedCount cards s.results = 0 then handleFinish cards s
  else s

/-- The two effects, in the order React runs them (rehydration at lines 35-48
is declared before the auto-finish effect at lines 51-55). -/
def effects (cards : List FlashcardData) (s : SessionState) : SessionState :=
  checkAutoFinish cards (rehydrate cards s)

/-- The user-triggered transitions of the session controller. -/
inductive Action where
  | setInput (text : String)
  | submit
  | nextCard
  | skip
  | previous
  | toggleBookmark
  | retryAccept
  | retryDecline
deriving DecidableEq

/-- One transition of the session controller.  After `onComplete` has fired
the component is unmounted, so every action is a no-op.  While the retry
prompt is displayed (lines 144-168) only `handleRetry` and `handleFinish`
are reachable.  Otherwise the card face is rendered only when a current card
exists (guard at line 171), and the handlers run followed by the effects. -/
def step (cards : List FlashcardData) (s : SessionState) (a : Action) : SessionState :=
  if s.finished.isSome then s
  else if s.showRetryPrompt = true then
    match a with
    | .retryAccept =>
      if 0 < (skippedIndices cards s.results).length then
        effects cards
          { s with queue := skippedIndices cards s.results, queueIndex := 0,
                   showRetryPrompt := false }
      else
        handleFinish cards s
    | .retryDecline => handleFinish cards s
    | _ => s
  else
    match a with
    | .setInput t =>
      match currentCard cards s with
      | some _ => { s with input := t }
      | none => s
    | .submit =>
      match currentCard cards s with
      | some card =>
        if blankInput s.input then s
        else effects cards
          { saveCurrentResult card false s.input s.isBookmarked s with isFlipped := true }
      | none => s
    | .nextCard =>
      match currentCard cards s with
      | some _ => effects cards (goToNextCard s)
      | none => s
    | .skip =>
      match currentCard cards s with
      | some card =>
        effects cards (goToNextCard (saveCurrentResult card true s.input s.isBookmarked s))
      | none => s
    | .previous =>
      match currentCard cards s with
      | some _ =>
        if 0 < s.queueIndex then
          effects cards { s with isFlipped := false, queueIndex := s.queueIndex - 1 }
        else s
      | none => s
    | .toggleBookmark =>
      match currentCard cards s with
      | some card =>
        effects cards
          { saveCurrentResult card false s.input (!s.isBookmarked) s with
              isBookmarked := !s.isBookmarked }
      | none => s
    | .retryAccept => s
    | .retryDecline => s

/-- A whole interaction: fold `step` over a list of actions. -/
def run (cards : List FlashcardData) : SessionState → List Action → SessionState
  | s, [] => s
  | s, a :: acts => run cards (step cards s a) acts

/-- The ids of the cards that were current when a Submit or Skip action was
issued along a trace; a card off this list never received a Submit or Skip. -/
def submitSkipTargets (cards : List FlashcardData) : SessionState → List Action → List String
  | _, [] => []
  | s, a :: acts =>
    let tail := submitSkipTargets cards (step cards s a) acts
    match a with
    | .submit | .skip =>
      match currentCard cards s with
      | some c => c.id :: tail
      | none => tail
    | _ => tail

/-- The retry prompt is rendered only under the guard at line 144:
`showRetryPrompt && skippedCount > 0`, and only while the component is mounted. -/
def rendersRetryPrompt (cards : List FlashcardData) (s : SessionState) : Prop :=
  s.finished = none ∧ s.showRetryPrompt = true ∧ 0 < skippedCount cards s.results

/-! ### Field-preservation lemmas for the handlers and effects -/

theorem handleFinish_results (cards : List FlashcardData) (t : SessionState) :
    (handleFinish cards t).results = t.results := rfl

theorem handleFinish_finished (cards : List FlashcardData) (t : SessionState) :
    (handleFinish cards t).finished = some (finalize cards t.results) := rfl

theorem goToNextCard_results (t : SessionState) : (goToNextCard t).results = t.results := by
  unfold goToNextCard
  split <;> rfl

theorem goToNextCard_queue (t : SessionState) : (goToNextCard t).queue = t.queue := by
  unfold goToNextCard
  split <;> rfl

theorem goToNextCard_finished (t : SessionState) : (goToNextCard t).finished = t.finished := by
  unfold goToNextCard
  split <;> rfl

theorem goToNextCard_isFlipped (t : SessionState) : (goToNextCard t).isFlipped = false := by
  unfold goToNextCard
  split <;> rfl

theorem rehydrate_results (cards : List FlashcardData) (t : SessionState) :
    (rehydrate cards t).results = t.results := by
  unfold rehydrate
  split
  · rfl
  · split <;> rfl

theorem rehydrate_queue (cards : List FlashcardData) (t : SessionState) :
    (rehydrate cards t).queue = t.queue := by
  unfold rehydrate
  split
  · rfl
  · split <;> rfl

theorem rehydrate_queueIndex (cards : List FlashcardData) (t : SessionState) :
    (rehydrate cards t).queueIndex = t.queueIndex := by
  unfold rehydrate
  split
  · rfl
  · split <;> rfl

theorem rehydrate_showRetryPrompt (cards : List FlashcardData) (t : SessionState) :
    (rehydrate cards t).showRetryPrompt = t.showRetryPrompt := by
  unfold rehydrate
  split
  · rfl
  · split <;> rfl

theorem rehydrate_finished (cards : List FlashcardData) (t : SessionState) :
    (rehydrate cards t).finished = t.finished := by
  unfold rehydrate
  split
  · rfl
  · split <;> rfl

theorem rehydrate_isFlipped (cards : List FlashcardData) (t : SessionState) :
    (rehydrate cards t).isFlipped = t.isFlipped := by
  unfold rehydrate
  split
  · rfl
  · split <;> rfl

theorem checkAutoFinish_results (cards : List FlashcardData) (t : SessionState) :
    (checkAutoFinish cards t).results = t.results := by
  unfold checkAutoFinish
  split <;> rfl

theorem checkAutoFinish_queue (cards : List FlashcardData) (t : SessionState) :
    (checkAutoFinish cards t).queue = t.queue := by
  unfold checkAutoFinish
  split <;> rfl

theorem checkAutoFinish_queueIndex (cards : List FlashcardData) (t : SessionState) :
    (checkAutoFinish cards t).queueIndex = t.queueIndex := by
  unfold checkAutoFinish
  split <;> rfl

theorem checkAutoFinish_showRetryPrompt (cards : List FlashcardData) (t : SessionState) :
    (checkAutoFinish cards t).showRetryPrompt = t.showRetryPrompt := by
  unfold checkAutoFinish
  split <;> rfl

theorem checkAutoFinish_isFlipped (cards : List FlashcardData) (t : SessionState) :
    (checkAutoFinish cards t).isFlipped = t.isFlipped := by
  unfold checkAutoFinish
  split <;> rfl

theorem checkAutoFinish_eq_self (cards : List FlashcardData) (t : SessionState)
    (h : t.showRetryPrompt = true → skippedCount cards t.results ≠ 0) :
    checkAutoFinish cards t = t := by
  unfold checkAutoFinish
  rw [if_neg]
  rintro ⟨h1, h2⟩
  exact h h1 h2

theorem checkAutoFinish_finish (cards : List FlashcardData) (t : SessionState)
    (h1 : t.showRetryPrompt = true) (h2 : skippedCount cards t.results = 0) :
    checkAutoFinish cards t = handleFinish cards t := by
  unfold checkAutoFinish
  rw [if_pos ⟨h1, h2⟩]

theorem effects_results (cards : List FlashcardData) (t : SessionState) :
    (effects cards t).results = t.results := by
  unfold effects
  rw [checkAutoFinish_results, rehydrate_results]

theorem effects_queue (cards : List FlashcardData) (t : SessionState) :
    (effects cards t).queue = t.queue := by
  unfold effects
  rw [checkAutoFinish_queue, rehydrate_queue]

theorem effects_queueIndex (cards : List FlashcardData) (t : SessionState) :
    (effects cards t).queueIndex = t.queueIndex := by
  unfold effects
  rw [checkAutoFinish_queueIndex, rehydrate_queueIndex]

theorem effects_showRetryPrompt (cards : List FlashcardData) (t : SessionState) :
    (effects cards t).showRetryPrompt = t.showRetryPrompt := by
  unfold effects
  rw [checkAutoFinish_showRetryPrompt, rehydrate_showRetryPrompt]

theorem effects_isFlipped (cards : List FlashcardData) (t : SessionState) :
    (effects cards t).isFlipped = t.isFlipped := by
  unfold effects
  rw [checkAutoFinish_isFlipped, rehydrate_isFlipped]

theorem effects_eq_rehydrate (cards : List FlashcardData) (t : SessionState)
    (h : t.showRetryPrompt = true → skippedCount cards t.results ≠ 0) :
    effects cards t = rehydrate cards t := by
  unfold effects
  apply checkAutoFinish_eq_self
  rw [rehydrate_showRetryPrompt, rehydrate_results]
  exact h

theorem effects_finished_of_not_prompt (cards : List FlashcardData) (t : SessionState)
    (h : t.showRetryPrompt = true → skippedCount cards t.results ≠ 0) :
    (effects cards t).finished = t.finished := by
  rw [effects_eq_rehydrate cards t h, rehydrate_finished]

/-! ### Small facts about the ledger and the skipped-count -/

theorem ResultsMap.insert_self (m : ResultsMap) (id : String) (v : UserResult) :
    m.insert id v id = some v := by
  unfold ResultsMap.insert
  rw [if_pos rfl]

theorem ResultsMap.insert_other (m : ResultsMap) (id k : String) (v : UserResult)
    (h : k ≠ id) : m.insert id v k = m k := by
  unfold ResultsMap.insert
  rw [if_neg h]

theorem resultSkipped_insert_self (m : ResultsMap) (id : String) (v : UserResult) :
    resultSkipped (m.insert id v) id = v.isSkipped := by
  unfold resultSkipped
  rw [ResultsMap.insert_self]

theorem currentCard_mem (cards : List FlashcardData) (s : SessionState) (c : FlashcardData)
    (h : currentCard cards s = some c) : c ∈ cards := by
  unfold currentCard currentCardIndex at h
  cases hq : s.queue[s.queueIndex]? with
  | none => rw [hq] at h; cases h
  | some i =>
    rw [hq] at h
    exact List.mem_iff_getElem?.mpr ⟨i, h⟩

theorem skippedCount_ne_zero (cards : List FlashcardData) (m : ResultsMap) (c : FlashcardData)
    (hc : c ∈ cards) (h : resultSkipped m c.id = true) : skippedCount cards m ≠ 0 := by
  unfold skippedCount
  have hm : c ∈ cards.filter fun c => resultSkipped m c.id := List.mem_filter.mpr ⟨hc, h⟩
  have := List.length_pos_of_mem hm
  omega

theorem skippedIndices_pairwise (cards : List FlashcardData) (m : ResultsMap) :
    List.Pairwise (· < ·) (skippedIndices cards m) := by
  unfold skippedIndices
  exact (List.pairwise_lt_range _).filter _

theorem mem_skippedIndices (cards : List FlashcardData) (m : ResultsMap) (idx : Nat) :
    idx ∈ skippedIndices cards m ↔
      ∃ c, cards[idx]? = some c ∧ resultSkipped m c.id = true := by
  unfold skippedIndices
  rw [List.mem_filter, List.mem_range]
  constructor
  · rintro ⟨hlt, hp⟩
    cases hc : cards[idx]? with
    | none => rw [hc] at hp; cases hp
    | some c => rw [hc] at hp; exact ⟨c, rfl, hp⟩
  · rintro ⟨c, hc, hs⟩
    obtain ⟨hlt, -⟩ := List.getElem?_eq_some.mp hc
    refine ⟨hlt, ?_⟩
    rw [hc]
    exact hs

/-! ### Invariants preserved along every run -/

theorem finished_eq_none_of_not_isSome {s : SessionState} (h : ¬s.finished.isSome = true) :
    s.finished = none := by
  cases hf : s.finished with
  | none => rfl
  | some v => rw [hf] at h; exact absurd rfl h

/-- The auto-finish effect has been honoured: no state survives a render with
the retry prompt raised, zero skipped entries, and `onComplete` not yet fired. -/
def AutoFinInv (cards : List FlashcardData) (s : SessionState) : Prop :=
  s.showRetryPrompt = true → skippedCount cards s.results = 0 → s.finished.isSome = true

theorem autoFinInv_handleFinish (cards : List FlashcardData) (t : SessionState) :
    AutoFinInv cards (handleFinish cards t) := by
  intro _ _
  rfl

theorem autoFinInv_checkAutoFinish (cards : List FlashcardData) (t : SessionState) :
    AutoFinInv cards (checkAutoFinish cards t) := by
  unfold checkAutoFinish
  split
  · exact autoFinInv_handleFinish cards t
  · next h =>
    intro hp hc
    exact absurd ⟨hp, hc⟩ h

theorem autoFinInv_effects (cards : List FlashcardData) (t : SessionState) :
    AutoFinInv cards (effects cards t) :=
  autoFinInv_checkAutoFinish cards (rehydrate cards t)

theorem autoFinInv_step (cards : List FlashcardData) (s : SessionState) (a : Action)
    (h : AutoFinInv cards s) : AutoFinInv cards (step cards s a) := by
  unfold step
  split
  · exact h
  · split
    · split
      · split
        · exact autoFinInv_effects cards _
        · exact autoFinInv_handleFinish cards s
      · exact autoFinInv_handleFinish cards s
      · exact h
    · split
      · split
        · exact h
        · exact h
      · split
        · split
          · exact h
          · exact autoFinInv_effects cards _
        · exact h
      · split
        · exact autoFinInv_effects cards _
        · exact h
      · split
        · exact autoFinInv_effects cards _
        · exact h
      · split
        · split
          · exact autoFinInv_effects cards _
          · exact h
        · exact h
      · split
        · exact autoFinInv_effects cards _
        · exact h
      · exact h
      · exact h

theorem autoFinInv_initState (cards : List FlashcardData) :
    AutoFinInv cards (initState cards) := by
  intro hp _
  exact Bool.noConfusion hp

theorem autoFinInv_run (cards : List FlashcardData) (s : SessionState) (acts : List Action)
    (h : AutoFinInv cards s) : AutoFinInv cards (run cards s acts) := by
  induction acts generalizing s with
  | nil => exact h
  | cons a acts ih => exact ih (step cards s a) (autoFinInv_step cards s a h)

/-- Whatever `onComplete` was handed is the finalization of the current ledger. -/
def FinishedInv (cards : List FlashcardData) (s : SessionState) : Prop :=
  ∀ rs, s.finished = some rs → rs = finalize cards s.results

theorem finishedInv_handleFinish (cards : List FlashcardData) (t : SessionState) :
    FinishedInv cards (handleFinish cards t) := by
  intro rs h
  injection h with h
  exact h.symm

theorem finishedInv_checkAutoFinish (cards : List FlashcardData) (t : SessionState)
    (h : t.finished = none) : FinishedInv cards (checkAutoFinish cards t) := by
  unfold checkAutoFinish
  split
  · exact finishedInv_handleFinish cards t
  · intro rs hrs
    rw [h] at hrs
    exact Option.noConfusion hrs

theorem finishedInv_effects (cards : List FlashcardData) (t : SessionState)
    (h : t.finished = none) : FinishedInv cards (effects cards t) := by
  unfold effects
  apply finishedInv_checkAutoFinish
  rw [rehydrate_finished]
  exact h

theorem finishedInv_step (cards : List FlashcardData) (s : SessionState) (a : Action)
    (h : FinishedInv cards s) : FinishedInv cards (step cards s a) := by
  unfold step
  split
  · exact h
  · next hfin =>
    have hnone : s.finished = none := finished_eq_none_of_not_isSome hfin
    split
    · split
      · split
        · exact finishedInv_effects cards _ hnone
        · exact finishedInv_handleFinish cards s
      · exact finishedInv_handleFinish cards s
      · exact h
    · split
      · split
        · exact h
        · exact h
      · split
        · split
          · exact h
          · exact finishedInv_effects cards _ hnone
        · exact h
      · split
        · apply finishedInv_effects
          rw [goToNextCard_finished]
          exact hnone
        · exact h
      · split
        · apply finishedInv_effects
          rw [goToNextCard_finished]
          exact hnone
        · exact h
      · split
        · split
          · exact finishedInv_effects cards _ hnone
          · exact h
        · exact h
      · split
        · exact finishedInv_effects cards _ hnone
        · exact h
      · exact h
      · exact h

theorem finishedInv_initState (cards : List FlashcardData) :
    FinishedInv cards (initState cards) := by
  intro rs h
  exact Option.noConfusion h

theorem finishedInv_run (cards : List FlashcardData) (s : SessionState) (acts : List Action)
    (h : FinishedInv cards s) : FinishedInv cards (run cards s acts) := by
  induction acts generalizing s with
  | nil => exact h
  | cons a acts ih => exact ih (step cards s a) (finishedInv_step cards s a h)

/-- Every ledger entry is stored under its own card id. -/
def ResultsIdInv (m : ResultsMap) : Prop :=
  ∀ id r, m id = some r → r.cardId = id

theorem resultsIdInv_insert {m : ResultsMap} {id : String} {v : UserResult}
    (h : ResultsIdInv m) (hv : v.cardId = id) : ResultsIdInv (m.insert id v) := by
  intro k r hr
  unfold ResultsMap.insert at hr
  split at hr
  · next hk =>
    injection hr with hr
    rw [← hr, hv]
    exact hk.symm
  · exact h k r hr

theorem resultsIdInv_step (cards : List FlashcardData) (s : SessionState) (a : Action)
    (h : ResultsIdInv s.results) : ResultsIdInv (step cards s a).results := by
  unfold step
  split
  · exact h
  · split
    · split
      · split
        · rw [effects_results]
          exact h
        · rw [handleFinish_results]
          exact h
      · rw [handleFinish_results]
        exact h
      · exact h
    · split
      · split
        · exact h
        · exact h
      · split
        · split
          · exact h
          · rw [effects_results]
            exact resultsIdInv_insert h rfl
        · exact h
      · split
        · rw [effects_results, goToNextCard_results]
          exact h
        · exact h
      · split
        · rw [effects_results, goToNextCard_results]
          exact resultsIdInv_insert h rfl
        · exact h
      · split
        · split
          · rw [effects_results]
            exact h
          · exact h
        · exact h
      · split
        · rw [effects_results]
          exact resultsIdInv_insert h rfl
        · exact h
      · exact h
      · exact h

theorem resultsIdInv_initState (cards : List FlashcardData) :
    ResultsIdInv (initState cards).results := by
  intro id r h
  exact Option.noConfusion h

theorem resultsIdInv_run (cards : List FlashcardData) (s : SessionState) (acts : List Action)
    (h : ResultsIdInv s.results) : ResultsIdInv (run cards s acts).results := by
  induction acts generalizing s with
  | nil => exact h
  | cons a acts ih => exact ih (step cards s a) (resultsIdInv_step cards s a h)

/-! ### Branch equations for `step` -/

theorem goToNextCard_eq_advance (t : SessionState) (h : t.queueIndex < t.queue.length - 1) :
    goToNextCard t = { t with isFlipped := false, queueIndex := t.queueIndex + 1 } := by
  unfold goToNextCard
  rw [if_pos h]

theorem goToNextCard_eq_prompt (t : SessionState) (h : ¬t.queueIndex < t.queue.length - 1) :
    goToNextCard t = { t with isFlipped := false, showRetryPrompt := true } := by
  unfold goToNextCard
  rw [if_neg h]

theorem step_setInput_eq (cards : List FlashcardData) (s : SessionState) (c : FlashcardData)
    (t : String) (hfin : s.finished = none) (hpr : s.showRetryPrompt = false)
    (hcur : currentCard cards s = some c) :
    step cards s (.setInput t) = { s with input := t } := by
  unfold step
  rw [if_neg (by rw [hfin]; exact Bool.false_ne_true)]
  rw [if_neg (by rw [hpr]; exact Bool.false_ne_true)]
  rw [hcur]

theorem step_submit_blank_eq (cards : List FlashcardData) (s : SessionState) (c : FlashcardData)
    (hfin : s.finished = none) (hpr : s.showRetryPrompt = false)
    (hcur : currentCard cards s = some c) (hb : blankInput s.input = true) :
    step cards s .submit = s := by
  unfold step
  rw [if_neg (by rw [hfin]; exact Bool.false_ne_true)]
  rw [if_neg (by rw [hpr]; exact Bool.false_ne_true)]
  rw [hcur]
  show (if blankInput s.input = true then s
    else effects cards
      { saveCurrentResult c false s.input s.isBookmarked s with isFlipped := true }) = s
  rw [if_pos hb]

theorem step_submit_eq (cards : List FlashcardData) (s : SessionState) (c : FlashcardData)
    (hfin : s.finished = none) (hpr : s.showRetryPrompt = false)
    (hcur : currentCard cards s = some c) (hb : blankInput s.input = false) :
    step cards s .submit =
      effects cards
        { saveCurrentResult c false s.input s.isBookmarked s with isFlipped := true } := by
  unfold step
  rw [if_neg (by rw [hfin]; exact Bool.false_ne_true)]
  rw [if_neg (by rw [hpr]; exact Bool.false_ne_true)]
  rw [hcur]
  show (if blankInput s.input = true then s
    else effects cards
      { saveCurrentResult c false s.input s.isBookmarked s with isFlipped := true }) = _
  rw [if_neg (by rw [hb]; exact Bool.false_ne_true)]

theorem step_nextCard_eq (cards : List FlashcardData) (s : SessionState) (c : FlashcardData)
    (hfin : s.finished = none) (hpr : s.showRetryPrompt = false)
    (hcur : currentCard cards s = some c) :
    step cards s .nextCard = effects cards (goToNextCard s) := by
  unfold step
  rw [if_neg (by rw [hfin]; exact Bool.false_ne_true)]
  rw [if_neg (by rw [hpr]; exact Bool.false_ne_true)]
  rw [hcur]

theorem step_skip_eq (cards : List FlashcardData) (s : SessionState) (c : FlashcardData)
    (hfin : s.finished = none) (hpr : s.showRetryPrompt = false)
    (hcur : currentCard cards s = some c) :
    step cards s .skip =
      effects cards (goToNextCard (saveCurrentResult c true s.input s.isBookmarked s)) := by
  unfold step
  rw [if_neg (by rw [hfin]; exact Bool.false_ne_true)]
  rw [if_neg (by rw [hpr]; exact Bool.false_ne_true)]
  rw [hcur]

theorem step_previous_zero_eq (cards : List FlashcardData) (s : SessionState) (c : FlashcardData)
    (hfin : s.finished = none) (hpr : s.showRetryPrompt = false)
    (hcur : currentCard cards s = some c) (hq : s.queueIndex = 0) :
    step cards s .previous = s := by
  unfold step
  rw [if_neg (by rw [hfin]; exact Bool.false_ne_true)]
  rw [if_neg (by rw [hpr]; exact Bool.false_ne_true)]
  rw [hcur]
  show (if 0 < s.queueIndex then
    effects cards { s with isFlipped := false, queueIndex := s.queueIndex - 1 } else s) = s
  rw [if_neg (by omega)]

theorem step_previous_eq (cards : List FlashcardData) (s : SessionState) (c : FlashcardData)
    (hfin : s.finished = none) (hpr : s.showRetryPrompt = false)
    (hcur : currentCard cards s = some c) (hq : 0 < s.queueIndex) :
    step cards s .previous =
      effects cards { s with isFlipped := false, queueIndex := s.queueIndex - 1 } := by
  unfold step
  rw [if_neg (by rw [hfin]; exact Bool.false_ne_true)]
  rw [if_neg (by rw [hpr]; exact Bool.false_ne_true)]
  rw [hcur]
  show (if 0 < s.queueIndex then
    effects cards { s with isFlipped := false, queueIndex := s.queueIndex - 1 } else s) = _
  rw [if_pos hq]

theorem step_toggleBookmark_eq (cards : List FlashcardData) (s : SessionState) (c : FlashcardData)
    (hfin : s.finished = none) (hpr : s.showRetryPrompt = false)
    (hcur : currentCard cards s = some c) :
    step cards s .toggleBookmark =
      effects cards
        { saveCurrentResult c false s.input (!s.isBookmarked) s with
            isBookmarked := !s.isBookmarked } := by
  unfold step
  rw [if_neg (by rw [hfin]; exact Bool.false_ne_true)]
  rw [if_neg (by rw [hpr]; exact Bool.false_ne_true)]
  rw [hcur]

theorem step_retryAccept_pos_eq (cards : List FlashcardData) (s : SessionState)
    (hfin : s.finished = none) (hpr : s.showRetryPrompt = true)
    (hlen : 0 < (skippedIndices cards s.results).length) :
    step cards s .retryAccept =
      effects cards
        { s with queue := skippedIndices cards s.results, queueIndex := 0,
                 showRetryPrompt := false } := by
  unfold step
  rw [if_neg (by rw [hfin]; exact Bool.false_ne_true)]
  rw [if_pos hpr]
  show (if 0 < (skippedIndices cards s.results).length then
    effects cards
      { s with queue := skippedIndices cards s.results, queueIndex := 0,
               showRetryPrompt := false }
    else handleFinish cards s) = _
  rw [if_pos hlen]

theorem step_retryAccept_nil_eq (cards : List FlashcardData) (s : SessionState)
    (hfin : s.finished = none) (hpr : s.showRetryPrompt = true)
    (hlen : ¬0 < (skippedIndices cards s.results).length) :
    step cards s .retryAccept = handleFinish cards s := by
  unfold step
  rw [if_neg (by rw [hfin]; exact Bool.false_ne_true)]
  rw [if_pos hpr]
  show (if 0 < (skippedIndices cards s.results).length then
    effects cards
      { s with queue := skippedIndices cards s.results, queueIndex := 0,
               showRetryPrompt := false }
    else handleFinish cards s) = _
  rw [if_neg hlen]

theorem step_retryDecline_eq (cards : List FlashcardData) (s : SessionState)
    (hfin : s.finished = none) (hpr : s.showRetryPrompt = true) :
    step cards s .retryDecline = handleFinish cards s := by
  unfold step
  rw [if_neg (by rw [hfin]; exact Bool.false_ne_true)]
  rw [if_pos hpr]

theorem rehydrate_eq_found (cards : List FlashcardData) (s : SessionState) (c : FlashcardData)
    (r : UserResult) (hcur : currentCard cards s = some c) (hm : s.results c.id = some r) :
    rehydrate cards s = { s with input := r.userInput, isBookmarked := r.isBookmarked } := by
  unfold rehydrate
  rw [hcur]
  show (match s.results c.id with
    | some r => { s with input := r.userInput, isBookmarked := r.isBookmarked }
    | none => { s with input := "", isBookmarked := false }) = _
  rw [hm]

theorem rehydrate_eq_fresh (cards : List FlashcardData) (s : SessionState) (c : FlashcardData)
    (hcur : currentCard cards s = some c) (hm : s.results c.id = none) :
    rehydrate cards s = { s with input := "", isBookmarked := false } := by
  unfold rehydrate
  rw [hcur]
  show (match s.results c.id with
    | some r => { s with input := r.userInput, isBookmarked := r.isBookmarked }
    | none => { s with input := "", isBookmarked := false }) = _
  rw [hm]

/-! ### Concrete fixtures used by witnesses and counterexamples -/

def cardsAB : List FlashcardData :=
  [⟨"a", "yi", "one"⟩, ⟨"b", "er", "two"⟩]

def cards1 : List FlashcardData := [⟨"1", "ni hao", "Hello"⟩]

def acts1 : List Action := [.setInput "Hi", .submit, .nextCard]

def cards3 : List FlashcardData := [⟨"p", "s1", "t1"⟩, ⟨"q", "s2", "t2"⟩, ⟨"r", "s3", "t3"⟩]

def trace3 : List Action := [.nextCard, .nextCard, .skip, .retryDecline]

def cards4 : List FlashcardData :=
  [⟨"a", "c1", "e1"⟩, ⟨"b", "c2", "e2"⟩, ⟨"c", "c3", "e3"⟩, ⟨"d", "c4", "e4"⟩]

def acts4 : List Action :=
  [.setInput "x", .submit, .nextCard, .skip, .setInput "y", .submit, .nextCard, .skip]

/-- The state of the `cards4` session at the retry prompt, with cards at
positions 1 and 3 skipped. -/
def stateAtPrompt4 : SessionState := run cards4 (initState cards4) acts4

def trace5 : List Action := [.toggleBookmark, .nextCard, .setInput "hi", .submit, .nextCard]

def stateC2 : SessionState := run cardsAB (initState cardsAB) [.skip, .previous]

def stateC10 : SessionState := run cardsAB (initState cardsAB) [.setInput "dra"]

def sampleResult : UserResult := ⟨"a", "yi", "one", "hey", false, true⟩

/-! ### The claims -/

/-- C1: for every card store and every sequence of session actions after which
the session has finished, the emitted result list has one entry per card in
original Card Store order: its length equals the store's length, the i-th
entry is the ledger entry recorded under `cards[i].id` (so its `cardId` equals
`cards[i].id`), and every card with no ledger entry at finish time is
synthesized as `userInput = ""`, `isSkipped = true`, `isBookmarked = false`. -/
theorem C1_total_coverage (cards : List FlashcardData) (acts : List Action)
    (rs : List UserResult)
    (hfin : (run cards (initState cards) acts).finished = some rs) :
    rs.length = cards.length ∧
    ∀ (i : Nat) (c : FlashcardData), cards[i]? = some c →
      rs[i]? = some (((run cards (initState cards) acts).results c.id).getD (synthResult c)) ∧
      (∀ r : UserResult, rs[i]? = some r → r.cardId = c.id) ∧
      ((run cards (initState cards) acts).results c.id = none →
        rs[i]? = some (synthResult c)) := by
  have hFin : FinishedInv cards (run cards (initState cards) acts) :=
    finishedInv_run cards (initState cards) acts (finishedInv_initState cards)
  have hId : ResultsIdInv (run cards (initState cards) acts).results :=
    resultsIdInv_run cards (initState cards) acts (resultsIdInv_initState cards)
  have hrs : rs = finalize cards (run cards (initState cards) acts).results := hFin rs hfin
  subst hrs
  constructor
  · unfold finalize
    exact List.length_map _ _
  · intro i c hc
    have hgi : (finalize cards (run cards (initState cards) acts).results)[i]? =
        some (((run cards (initState cards) acts).results c.id).getD (synthResult c)) := by
      unfold finalize
      rw [List.getElem?_map, hc]
      rfl
    refine ⟨hgi, ?_, ?_⟩
    · intro r hr
      rw [hgi] at hr
      injection hr with hr
      rw [← hr]
      cases hm : (run cards (initState cards) acts).results c.id with
      | none => rfl
      | some v => exact hId c.id v hm
    · intro hnone
      rw [hgi, hnone]
      rfl

/-- Witness for C1: a one-card session submitted and advanced to completion. -/
theorem C1_total_coverage_witness :
    (run cards1 (initState cards1) acts1).finished =
      some [⟨"1", "ni hao", "Hello", "Hi", false, false⟩] ∧
    [(⟨"1", "ni hao", "Hello", "Hi", false, false⟩ : UserResult)].length = cards1.length :=
  ⟨by decide, (C1_total_coverage cards1 acts1 _ (by decide)).1⟩

/-- C4: whenever the cursor has exhausted the active queue (the retry-prompt
flag is raised) while the ledger's skipped count is 0, the session has already
auto-finished: `onComplete` was handed the finalized result list and the retry
prompt is never rendered to the caller. -/
theorem C4_auto_skip_retry_prompt (cards : List FlashcardData) (acts : List Action)
    (hp : (run cards (initState cards) acts).showRetryPrompt = true)
    (hc : skippedCount cards (run cards (initState cards) acts).results = 0) :
    (run cards (initState cards) acts).finished =
      some (finalize cards (run cards (initState cards) acts).results) ∧
    ¬rendersRetryPrompt cards (run cards (initState cards) acts) := by
  have hInv : AutoFinInv cards (run cards (initState cards) acts) :=
    autoFinInv_run cards (initState cards) acts (autoFinInv_initState cards)
  have hFin : FinishedInv cards (run cards (initState cards) acts) :=
    finishedInv_run cards (initState cards) acts (finishedInv_initState cards)
  obtain ⟨rs, hrs⟩ := Option.isSome_iff_exists.mp (hInv hp hc)
  constructor
  · rw [hrs]
    exact congrArg some (hFin rs hrs)
  · intro hr
    obtain ⟨-, -, hpos⟩ := hr
    rw [hc] at hpos
    exact absurd hpos (lt_irrefl 0)

/-- Witness for C4: the queue of `cards1` is exhausted with nothing skipped;
the state auto-finishes. -/
theorem C4_auto_skip_retry_prompt_witness :
    (run cards1 (initState cards1) acts1).showRetryPrompt = true ∧
    skippedCount cards1 (run cards1 (initState cards1) acts1).results = 0 ∧
    (run cards1 (initState cards1) acts1).finished =
      some (finalize cards1 (run cards1 (initState cards1) acts1).results) :=
  ⟨by decide, by decide, (C4_auto_skip_retry_prompt cards1 acts1 (by decide) (by decide)).1⟩

/-- C3: from any state showing the retry prompt, RetryAccept computes the set
of card positions whose ledger entry has `isSkipped = true`; when non-empty it
becomes the new active queue, ordered by original Card Store position (it is
strictly increasing), with the cursor reset to 0, the prompt dismissed and the
session not finished; when empty the session finishes instead. -/
theorem C3_retry_accept (cards : List FlashcardData) (s : SessionState)
    (hfin : s.finished = none) (hpr : s.showRetryPrompt = true) :
    (skippedIndices cards s.results ≠ [] →
      (step cards s .retryAccept).queue = skippedIndices cards s.results ∧
      (step cards s .retryAccept).queueIndex = 0 ∧
      (step cards s .retryAccept).showRetryPrompt = false ∧
      (step cards s .retryAccept).finished = none ∧
      List.Pairwise (· < ·) (step cards s .retryAccept).queue ∧
      (∀ idx, idx ∈ (step cards s .retryAccept).queue ↔
        ∃ c, cards[idx]? = some c ∧ resultSkipped s.results c.id = true)) ∧
    (skippedIndices cards s.results = [] →
      (step cards s .retryAccept).finished = some (finalize cards s.results)) := by
  constructor
  · intro hne
    have hlen : 0 < (skippedIndices cards s.results).length := List.length_pos.mpr hne
    rw [step_retryAccept_pos_eq cards s hfin hpr hlen]
    refine ⟨?_, ?_, ?_, ?_, ?_, ?_⟩
    · rw [effects_queue]
    · rw [effects_queueIndex]
    · rw [effects_showRetryPrompt]
    · rw [effects_finished_of_not_prompt _ _ (fun hx => absurd hx Bool.false_ne_true)]
      exact hfin
    · rw [effects_queue]
      exact skippedIndices_pairwise cards s.results
    · intro idx
      rw [effects_queue]
      exact mem_skippedIndices cards s.results idx
  · intro hnil
    rw [step_retryAccept_nil_eq cards s hfin hpr (by rw [hnil]; exact lt_irrefl 0)]
    rw [handleFinish_finished]

/-- Witness for C3: in the four-card session, positions 1 and 3 were skipped;
accepting the retry makes `[1, 3]` the queue (original order, cursor 0), and
finishing the retry round yields results in original order a, b, c, d. -/
theorem C3_retry_accept_witness :
    skippedIndices cards4 stateAtPrompt4.results = [1, 3] ∧
    (step cards4 stateAtPrompt4 .retryAccept).queue =
      skippedIndices cards4 stateAtPrompt4.results ∧
    (step cards4 stateAtPrompt4 .retryAccept).queueIndex = 0 ∧
    (step cards4 stateAtPrompt4 .retryAccept).showRetryPrompt = false ∧
    (run cards4 (step cards4 stateAtPrompt4 .retryAccept)
        [.setInput "bb", .submit, .nextCard, .setInput "dd", .submit, .nextCard]).finished =
      some [⟨"a", "c1", "e1", "x", false, false⟩, ⟨"b", "c2", "e2", "bb", false, false⟩,
            ⟨"c", "c3", "e3", "y", false, false⟩, ⟨"d", "c4", "e4", "dd", false, false⟩] := by
  have h := (C3_retry_accept cards4 stateAtPrompt4 (by decide) (by decide)).1 (by decide)
  exact ⟨by decide, h.1, h.2.1, h.2.2.1, by decide⟩

/-- C2 counterexample: skip card "a", navigate back to it (its ledger entry
has `isSkipped = true`), then ToggleBookmark: the persisted upsert has
`isSkipped = false`, so the skip flag was NOT left unchanged as claimed. -/
theorem C2_counterexample :
    (run cardsAB (initState cardsAB) [.skip, .previous]).results "a" =
      some ⟨"a", "yi", "one", "", true, false⟩ ∧
    (run cardsAB (initState cardsAB) [.skip, .previous, .toggleBookmark]).results "a" =
      some ⟨"a", "yi", "one", "", false, true⟩ :=
  ⟨by decide, by decide⟩

/-- C2 (amended): ToggleBookmark immediately persists an upsert for the
current card whose `isBookmarked` is flipped and whose `userInput` is the live
edit buffer (equal to the prior entry's text unless edited since arrival), but
whose `isSkipped` is always written as `false` — the prior entry's skip flag is
overwritten, not preserved; ledger entries of all other cards are unchanged. -/
theorem C2_toggle_bookmark (cards : List FlashcardData) (s : SessionState) (c : FlashcardData)
    (r : UserResult) (hfin : s.finished = none) (hpr : s.showRetryPrompt = false)
    (hcur : currentCard cards s = some c) (_hprev : s.results c.id = some r) :
    (step cards s .toggleBookmark).results c.id =
      some (mkResult c s.input false (!s.isBookmarked)) ∧
    ∀ k : String, k ≠ c.id → (step cards s .toggleBookmark).results k = s.results k := by
  rw [step_toggleBookmark_eq cards s c hfin hpr hcur, effects_results]
  constructor
  · exact ResultsMap.insert_self _ _ _
  · intro k hk
    exact ResultsMap.insert_other _ _ _ _ hk

/-- Witness for C2 (amended), at the state of `C2_counterexample`: toggling
the bookmark of skipped card "a" persists `isSkipped = false` and leaves the
entry of card "b" unchanged. -/
theorem C2_toggle_bookmark_witness :
    (step cardsAB stateC2 .toggleBookmark).results "a" =
      some (mkResult ⟨"a", "yi", "one"⟩ "" false true) ∧
    (step cardsAB stateC2 .toggleBookmark).results "b" = stateC2.results "b" := by
  have h := C2_toggle_bookmark cardsAB stateC2 ⟨"a", "yi", "one"⟩
    ⟨"a", "yi", "one", "", true, false⟩ (by decide) (by decide) (by decide) (by decide)
  exact ⟨h.1, h.2 "b" (by decide)⟩

/-- C5 counterexample: in the two-card session card "a" receives only a
ToggleBookmark and is never submitted or skipped (the only Submit target along
the trace is "b"), yet its finalized entry has `isSkipped = false`, not `true`
as the claim requires. -/
theorem C5_counterexample :
    submitSkipTargets cardsAB (initState cardsAB) trace5 = ["b"] ∧
    (run cardsAB (initState cardsAB) trace5).finished =
      some [⟨"a", "yi", "one", "", false, true⟩, ⟨"b", "er", "two", "hi", false, false⟩] :=
  ⟨by decide, by decide⟩

/-- C5 (amended): a card with no ledger entry at session end — one that never
received a Submit, Skip or ToggleBookmark — is finalized as the synthesized
entry with `isSkipped = true`; but a card that received only ToggleBookmark
has a ledger entry with `isSkipped = false`, so it is finalized as not
skipped despite never being submitted or skipped. -/
theorem C5_unvisited_cards :
    (∀ (cards : List FlashcardData) (acts : List Action) (rs : List UserResult)
      (i : Nat) (c : FlashcardData),
      (run cards (initState cards) acts).finished = some rs →
      cards[i]? = some c →
      (run cards (initState cards) acts).results c.id = none →
      rs[i]? = some (synthResult c)) ∧
    (∀ (cards : List FlashcardData) (s : SessionState) (c : FlashcardData),
      s.finished = none → s.showRetryPrompt = false → currentCard cards s = some c →
      ((step cards s .toggleBookmark).results c.id).map UserResult.isSkipped = some false) := by
  constructor
  · intro cards acts rs i c hfin hc hnone
    have hFin : FinishedInv cards (run cards (initState cards) acts) :=
      finishedInv_run cards (initState cards) acts (finishedInv_initState cards)
    have hrs := hFin rs hfin
    subst hrs
    unfold finalize
    rw [List.getElem?_map, hc]
    show some (((run cards (initState cards) acts).results c.id).getD (synthResult c)) = _
    rw [hnone]
    rfl
  · intro cards s c hfin hpr hcur
    have hres : (step cards s .toggleBookmark).results c.id =
        some (mkResult c s.input false (!s.isBookmarked)) := by
      rw [step_toggleBookmark_eq cards s c hfin hpr hcur, effects_results]
      exact ResultsMap.insert_self _ _ _
    rw [hres]
    rfl

/-- Witness for C5 (amended): cards "p" and "q" are advanced past without any
action (no ledger entry) and the session is finished from the retry prompt;
their finalized entries are the synthesized skipped entries. -/
theorem C5_unvisited_cards_witness :
    (run cards3 (initState cards3) trace3).results "p" = none ∧
    (run cards3 (initState cards3) trace3).finished =
      some [synthResult ⟨"p", "s1", "t1"⟩, synthResult ⟨"q", "s2", "t2"⟩,
            ⟨"r", "s3", "t3", "", true, false⟩] ∧
    [synthResult ⟨"p", "s1", "t1"⟩, synthResult ⟨"q", "s2", "t2"⟩,
      (⟨"r", "s3", "t3", "", true, false⟩ : UserResult)][0]? =
        some (synthResult ⟨"p", "s1", "t1"⟩) := by
  refine ⟨by decide, by decide, ?_⟩
  exact C5_unvisited_cards.1 cards3 trace3 _ 0 ⟨"p", "s1", "t1"⟩ (by decide) (by decide)
    (by decide)

/-- C6: the ledger holds at most one entry per card id by construction (it is
a keyed map); writing an entry totally replaces the previous one at that id
and leaves every other id untouched; and concretely, submitting "A" and later
"B" for card "a" (without finishing in between) finalizes card "a" with
`userInput = "B"`. -/
theorem C6_last_write_wins :
    (∀ (m : ResultsMap) (id : String) (v : UserResult), m.insert id v id = some v) ∧
    (∀ (m : ResultsMap) (id k : String) (v : UserResult), k ≠ id → m.insert id v k = m k) ∧
    (run cardsAB (initState cardsAB)
        [.setInput "A", .submit, .nextCard, .previous, .setInput "B", .submit,
         .nextCard, .setInput "t", .submit, .nextCard]).finished =
      some [⟨"a", "yi", "one", "B", false, false⟩, ⟨"b", "er", "two", "t", false, false⟩] :=
  ⟨ResultsMap.insert_self, ResultsMap.insert_other, by decide⟩

/-- Witness for C6: replacement and frame at concrete keys. -/
theorem C6_last_write_wins_witness :
    ResultsMap.empty.insert "a" sampleResult "b" = ResultsMap.empty "b" ∧
    ResultsMap.empty.insert "a" sampleResult "a" = some sampleResult :=
  ⟨C6_last_write_wins.2.1 ResultsMap.empty "a" "b" sampleResult (by decide),
   C6_last_write_wins.1 ResultsMap.empty "a" sampleResult⟩

/-- C7: Skip records the current card with `isSkipped = true`, persisting the
live per-card buffer values of `userInput` and `isBookmarked` (which are the
card's prior ledger values on arrival — empty string and false when the card
has no entry, last conjunct), and then advances exactly as Advance does:
cursor + 1 when not at the last queue position, retry prompt otherwise; the
queue is unchanged, the card unflips, and the session does not finish.  The
transition applies for any value of `isFlipped` (no reveal required). -/
theorem C7_skip (cards : List FlashcardData) (s : SessionState) (c : FlashcardData)
    (hfin : s.finished = none) (hpr : s.showRetryPrompt = false)
    (hcur : currentCard cards s = some c) :
    (step cards s .skip).results c.id = some (mkResult c s.input true s.isBookmarked) ∧
    (step cards s .skip).queue = s.queue ∧
    (step cards s .skip).isFlipped = false ∧
    (step cards s .skip).finished = none ∧
    (s.queueIndex < s.queue.length - 1 →
      (step cards s .skip).queueIndex = s.queueIndex + 1 ∧
      (step cards s .skip).showRetryPrompt = false) ∧
    (¬s.queueIndex < s.queue.length - 1 →
      (step cards s .skip).queueIndex = s.queueIndex ∧
      (step cards s .skip).showRetryPrompt = true) ∧
    (s.results c.id = none →
      (rehydrate cards s).input = "" ∧ (rehydrate cards s).isBookmarked = false) := by
  rw [step_skip_eq cards s c hfin hpr hcur]
  have hmem : c ∈ cards := currentCard_mem cards s c hcur
  refine ⟨?_, ?_, ?_, ?_, ?_, ?_, ?_⟩
  · rw [effects_results, goToNextCard_results]
    exact ResultsMap.insert_self _ _ _
  · rw [effects_queue, goToNextCard_queue]
    rfl
  · rw [effects_isFlipped, goToNextCard_isFlipped]
  · by_cases hlt : s.queueIndex < s.queue.length - 1
    · rw [goToNextCard_eq_advance (saveCurrentResult c true s.input s.isBookmarked s) hlt]
      rw [effects_finished_of_not_prompt]
      · exact hfin
      · intro hx
        exact absurd (show s.showRetryPrompt = true from hx)
          (by rw [hpr]; exact Bool.false_ne_true)
    · rw [goToNextCard_eq_prompt (saveCurrentResult c true s.input s.isBookmarked s) hlt]
      rw [effects_finished_of_not_prompt]
      · exact hfin
      · intro _
        exact skippedCount_ne_zero cards _ c hmem (resultSkipped_insert_self _ _ _)
  · intro hlt
    rw [goToNextCard_eq_advance (saveCurrentResult c true s.input s.isBookmarked s) hlt]
    refine ⟨?_, ?_⟩
    · rw [effects_queueIndex]
      rfl
    · rw [effects_showRetryPrompt]
      exact hpr
  · intro hlt
    rw [goToNextCard_eq_prompt (saveCurrentResult c true s.input s.isBookmarked s) hlt]
    refine ⟨?_, ?_⟩
    · rw [effects_queueIndex]
      rfl
    · rw [effects_showRetryPrompt]
  · intro hnone
    rw [rehydrate_eq_fresh cards s c hcur hnone]
    exact ⟨rfl, rfl⟩

/-- Witness for C7 at the initial two-card state: skipping card "a" records a
skipped entry with the empty buffer and moves the cursor to 1. -/
theorem C7_skip_witness :
    (step cardsAB (initState cardsAB) .skip).results "a" =
      some (mkResult ⟨"a", "yi", "one"⟩ "" true false) ∧
    (step cardsAB (initState cardsAB) .skip).queueIndex = 1 := by
  have h := C7_skip cardsAB (initState cardsAB) ⟨"a", "yi", "one"⟩ rfl rfl (by decide)
  exact ⟨h.1, (h.2.2.2.2.1 (by decide)).1⟩

/-- C8: Submit with text that is empty or whitespace-only after trimming, and
Previous at cursor 0, are rejected as no-ops: the whole session state (ledger,
queue, cursor, buffers) is returned unchanged.  The transitions are total Lean
functions, so no exception can propagate out of the controller. -/
theorem C8_invalid_transitions (cards : List FlashcardData) (s : SessionState)
    (c : FlashcardData) (hfin : s.finished = none) (hpr : s.showRetryPrompt = false)
    (hcur : currentCard cards s = some c) :
    (blankInput s.input = true → step cards s .submit = s) ∧
    (s.queueIndex = 0 → step cards s .previous = s) :=
  ⟨fun hb => step_submit_blank_eq cards s c hfin hpr hcur hb,
   fun hq => step_previous_zero_eq cards s c hfin hpr hcur hq⟩

/-- Witness for C8 at the initial two-card state (empty input, cursor 0). -/
theorem C8_invalid_transitions_witness :
    step cardsAB (initState cardsAB) .submit = initState cardsAB ∧
    step cardsAB (initState cardsAB) .previous = initState cardsAB := by
  have h := C8_invalid_transitions cardsAB (initState cardsAB) ⟨"a", "yi", "one"⟩ rfl rfl
    (by decide)
  exact ⟨h.1 rfl, h.2 rfl⟩

/-- C9 counterexample: constructing the controller with an empty card list
does not fail with a construction error — the component state is created
(`finished = none`, retry prompt not raised, i.e. nominally Active) with no
current card, and a Skip leaves the state unchanged. -/
theorem C9_counterexample :
    (initState ([] : List FlashcardData)).finished = none ∧
    (initState ([] : List FlashcardData)).showRetryPrompt = false ∧
    currentCard [] (initState []) = none ∧
    step [] (initState []) .skip = initState [] :=
  ⟨rfl, rfl, rfl, rfl⟩

/-- C9 (amended): constructing the controller with an empty Card Store raises
no construction error: the component mounts with an empty queue and no current
card, renders nothing, and every session action leaves the state unchanged —
the session can never present a card or finish on its own.  Rejecting empty
input is done by the import collaborator before the controller is mounted. -/
theorem C9_empty_store (a : Action) :
    currentCard [] (initState []) = none ∧
    (initState ([] : List FlashcardData)).finished = none ∧
    step [] (initState []) a = initState [] := by
  refine ⟨rfl, rfl, ?_⟩
  cases a <;> rfl

/-- Witness for C9 (amended) at the Previous action. -/
theorem C9_empty_store_witness :
    step [] (initState []) .previous = initState [] :=
  (C9_empty_store .previous).2.2

/-- C10: ToggleBookmark persists the live edit buffer's current text as the
card's `userInput` in the ledger — typed-but-never-submitted text becomes the
persisted value — and the finalized entry for that card then carries exactly
that text. -/
theorem C10_toggle_persists_buffer (cards : List FlashcardData) (s : SessionState)
    (c : FlashcardData) (hfin : s.finished = none) (hpr : s.showRetryPrompt = false)
    (hcur : currentCard cards s = some c) :
    ((step cards s .toggleBookmark).results c.id).map UserResult.userInput = some s.input ∧
    ∀ i : Nat, cards[i]? = some c →
      ((finalize cards (step cards s .toggleBookmark).results)[i]?).map UserResult.userInput =
        some s.input := by
  have hres : (step cards s .toggleBookmark).results c.id =
      some (mkResult c s.input false (!s.isBookmarked)) := by
    rw [step_toggleBookmark_eq cards s c hfin hpr hcur, effects_results]
    exact ResultsMap.insert_self _ _ _
  constructor
  · rw [hres]
    rfl
  · intro i hc2
    have hgi : (finalize cards (step cards s .toggleBookmark).results)[i]? =
        some (((step cards s .toggleBookmark).results c.id).getD (synthResult c)) := by
      unfold finalize
      rw [List.getElem?_map, hc2]
      rfl
    rw [hgi, hres]
    rfl

/-- Witness for C10: type "dra" without submitting, toggle the bookmark; the
ledger entry and the finalized entry for card "a" carry "dra". -/
theorem C10_toggle_persists_buffer_witness :
    ((step cardsAB stateC10 .toggleBookmark).results "a").map UserResult.userInput =
      some "dra" ∧
    ((finalize cardsAB (step cardsAB stateC10 .toggleBookmark).results)[0]?).map
      UserResult.userInput = some "dra" := by
  have h := C10_toggle_persists_buffer cardsAB stateC10 ⟨"a", "yi", "one"⟩ (by decide)
    (by decide) (by decide)
  exact ⟨h.1, h.2 0 (by decide)⟩

end Flashcards
